import Mathlib

/-!
Shallow embedding of `src/main.rs` (Adreno GPU info tool).

Machine integers (`u32`, `u8`) are modelled as `Nat`; every claim that
quantifies over "32-bit inputs" carries an explicit `< 2^32` bound.
The `ioctl` syscall is modelled as an oracle function supplied by the
environment; query functions additionally return the list of request
codes they issued, so that claims about which codes are attempted and in
which order can be stated.
-/

-- ===========================================================================
-- Data model (src/main.rs lines 13-57)
-- ===========================================================================

/-- Mirrors `struct KgslDeviceInfo` (main.rs lines 22-29): four consecutive
`u32` fields, 16 bytes total. -/
structure KgslDeviceInfo where
  device_id : Nat
  chip_id : Nat
  mmu_enabled : Nat
  gmem_gpubaseaddr : Nat
deriving Repr, DecidableEq

/-- Mirrors `struct KgslVersionInfo` (main.rs lines 31-37): two consecutive
`u32` fields, 8 bytes total. -/
structure KgslVersionInfo where
  driver_version : Nat
  device_version : Nat
deriving Repr, DecidableEq

/-- Mirrors `struct ChipInfo` (main.rs lines 47-57). -/
structure ChipInfo where
  raw_id : Nat
  major : Nat
  minor : Nat
  patch : Nat
  revision : Nat
  model_name : String
  adreno_generation : String
  snapdragon_model : Option String
deriving Repr, DecidableEq

-- ===========================================================================
-- Chip ID decoding (src/main.rs lines 59-125)
-- ===========================================================================

/-- The `match major` block of `decode_chip_id` (main.rs lines 66-77). -/
def adreno_gen_of (major : Nat) : String :=
  match major with
  | 1 => "100"
  | 2 => "200"
  | 3 => "300"
  | 4 => "400"
  | 5 => "500"
  | 6 => "600"
  | 7 => "700"
  | 8 => "800"
  | 9 => "900"
  | _ => "Unknown"

/-- The `match (major, minor)` model-name block of `decode_chip_id`
(main.rs lines 80-97). -/
def model_name_of (major minor : Nat) : String :=
  match major, minor with
  | 6, 0 => "Adreno 600"
  | 6, 1 => "Adreno 610"
  | 6, 2 => "Adreno 620"
  | 6, 3 => "Adreno 630"
  | 6, 4 => "Adreno 640"
  | 6, 5 => "Adreno 650"
  | 6, 6 => "Adreno 660"
  | 6, 8 => "Adreno 680"
  | 6, 9 => "Adreno 690"
  | 7, 0 => "Adreno 700"
  | 7, 1 => "Adreno 710"
  | 7, 2 => "Adreno 720"
  | 7, 3 => "Adreno 730"
  | 7, 4 => "Adreno 740"
  | 7, 5 => "Adreno 750"
  | _, _ => "Adreno GPU"

/-- The `match (major, minor)` snapdragon block of `decode_chip_id`
(main.rs lines 100-113). -/
def snapdragon_of (major minor : Nat) : Option String :=
  match major, minor with
  | 6, 1 => some "Snapdragon 665/680/685/690/6 Gen 1"
  | 6, 2 => some "Snapdragon 730/732G"
  | 6, 3 => some "Snapdragon 835/845"
  | 6, 4 => some "Snapdragon 855"
  | 6, 5 => some "Snapdragon 865/870"
  | 6, 6 => some "Snapdragon 888"
  | 6, 8 => some "Snapdragon 8 Gen 1"
  | 6, 9 => some "Snapdragon 7+ Gen 2"
  | 7, 2 => some "Snapdragon 7 Gen 1"
  | 7, 3 => some "Snapdragon 8+ Gen 1"
  | 7, 5 => some "Snapdragon 8 Gen 2"
  | _, _ => none

/-- Mirrors `fn decode_chip_id` (main.rs lines 59-125).  The Rust `as u8`
casts are no-ops because each value is already masked with `0xFF`. -/
def decode_chip_id (chip_id : Nat) : ChipInfo :=
  let major := (chip_id >>> 24) &&& 0xFF
  let minor := (chip_id >>> 16) &&& 0xFF
  let patch := (chip_id >>> 8) &&& 0xFF
  let revision := chip_id &&& 0xFF
  { raw_id := chip_id
    major := major
    minor := minor
    patch := patch
    revision := revision
    model_name := model_name_of major minor
    adreno_generation := adreno_gen_of major
    snapdragon_model := snapdragon_of major minor }

/-- The (major, minor) keys of the model-name table (main.rs lines 81-95). -/
def model_table_keys : List (Nat × Nat) :=
  [(6, 0), (6, 1), (6, 2), (6, 3), (6, 4), (6, 5), (6, 6), (6, 8), (6, 9),
   (7, 0), (7, 1), (7, 2), (7, 3), (7, 4), (7, 5)]

/-- The major keys of the generation table (main.rs lines 67-75). -/
def gen_table_keys : List Nat := [1, 2, 3, 4, 5, 6, 7, 8, 9]

/-- The (major, minor) keys of the snapdragon table (main.rs lines 101-111). -/
def snapdragon_table_keys : List (Nat × Nat) :=
  [(6, 1), (6, 2), (6, 3), (6, 4), (6, 5), (6, 6), (6, 8), (6, 9),
   (7, 2), (7, 3), (7, 5)]

-- ===========================================================================
-- Property query engine (src/main.rs lines 132-245)
-- ===========================================================================

/-- Typed stand-ins for the `Err(String)` values of the source: `RequestFailed`
for "IOCTL failed: ..." (main.rs line 153), `EmptyResponse` for "Keine
gültigen GPU-Daten empfangen" (line 159), `NoCandidateWorked` for the
probing-exhausted message (line 196). -/
inductive QueryError where
  | RequestFailed
  | EmptyResponse
  | NoCandidateWorked
deriving Repr, DecidableEq

/-- Mirrors `fn read_gpu_info` (main.rs lines 132-163).  The `libc::ioctl`
call is an oracle mapping the request code to the return value and the
populated 16-byte buffer (the buffer starts zero-initialized and is written
in place by the kernel).  The second component of the result records the
request codes issued, in order. -/
def read_gpu_info (ioctl : Nat → Int × KgslDeviceInfo) :
    Except QueryError KgslDeviceInfo × List Nat :=
  let ioctl_num : Nat := 0xc0140902
  let call := ioctl ioctl_num
  let res : Except QueryError KgslDeviceInfo :=
    if call.1 < 0 then .error .RequestFailed
    else if call.2.chip_id = 0 ∧ call.2.device_id = 0 then .error .EmptyResponse
    else .ok call.2
  (res, [ioctl_num])

/-- Shared shape of the candidate-probing loops in `read_gpu_version`
(main.rs lines 187-194) and `try_read_gpu_frequency` (lines 236-242): the
buffer persists across attempts (the oracle receives the buffer left by the
previous call), and an attempt is accepted when the call returns 0 and the
buffer tests non-zero.  Also records the request codes issued, in order. -/
def query_probing {V : Type} (nonzero : V → Bool)
    (ioctl : Nat → V → Int × V) (buf : V) :
    List Nat → Except QueryError V × List Nat
  | [] => (.error .NoCandidateWorked, [])
  | c :: rest =>
    let call := ioctl c buf
    if call.1 = 0 ∧ nonzero call.2 then (.ok call.2, [c])
    else
      let next := query_probing nonzero ioctl call.2 rest
      (next.1, c :: next.2)

/-- Acceptance test of `read_gpu_version` (main.rs line 190):
`driver_version != 0 || device_version != 0`. -/
def version_nonzero (v : KgslVersionInfo) : Bool :=
  v.driver_version != 0 || v.device_version != 0

/-- The `possible_ioctls` array of `read_gpu_version` (main.rs lines 181-185). -/
def version_candidates : List Nat := [0xc0080902, 0xc0140902, 0xc00c0902]

/-- Mirrors `fn read_gpu_version` (main.rs lines 166-197). -/
def read_gpu_version (ioctl : Nat → KgslVersionInfo → Int × KgslVersionInfo) :
    Except QueryError KgslVersionInfo × List Nat :=
  query_probing version_nonzero ioctl ⟨0, 0⟩ version_candidates

/-- The `possible_ioctls` array of `try_read_gpu_frequency`
(main.rs line 234). -/
def frequency_candidates : List Nat := [0xc0040902, 0xc0080902, 0xc0140902]

/-- Mirrors `fn try_read_gpu_frequency` (main.rs lines 220-245): same probing
loop over a single `u32` buffer, returning `Option` instead of `Result`. -/
def try_read_gpu_frequency (ioctl : Nat → Nat → Int × Nat) :
    Option Nat × List Nat :=
  let r := query_probing (fun v => v != 0) ioctl 0 frequency_candidates
  (r.1.toOption, r.2)

/-- The full attempt sequence a probing loop would make if it never stopped:
each entry pairs the candidate code with the call result and the buffer
contents after that call; the buffer threads from one attempt to the next
exactly as in `query_probing`. -/
def run_candidates {V : Type} (ioctl : Nat → V → Int × V) (buf : V) :
    List Nat → List (Nat × Int × V)
  | [] => []
  | c :: rest =>
    let call := ioctl c buf
    (c, call) :: run_candidates ioctl call.2 rest

-- ===========================================================================
-- Device locator (src/main.rs lines 200-213)
-- ===========================================================================

/-- The `possible_paths` array of `find_kgsl_devices` (main.rs lines 201-207). -/
def possible_paths : List String :=
  ["/dev/kgsl-3d0", "/dev/kgsl/kgsl-3d0", "/dev/kgsl-3d1",
   "/dev/kgsl-2d0", "/dev/kgsl-2d1"]

/-- Mirrors `fn find_kgsl_devices` (main.rs lines 200-213), parametrized by
the filesystem existence predicate (`std::path::Path::exists`).  The Rust
`map(|&s| s.to_string())` is the identity here since entries are already
`String`s. -/
def find_kgsl_devices (path_exists : String → Bool) : List String :=
  possible_paths.filter path_exists

-- ===========================================================================
-- Control-code encoding (spec section 6; Linux _IOC convention)
-- ===========================================================================

/-- Modelled from the spec: "the numeric request code encodes direction
(read/write), a type group identifier, a command identifier, and the declared
payload size, per the platform's control-code encoding convention" — the
Linux `_IOC` layout: bits 31-30 direction, 29-16 size, 15-8 type, 7-0
command number.  Direction value 3 is IOWR (read/write). -/
def ioc_dir (code : Nat) : Nat := code >>> 30

/-- Declared payload size field of a control code (bits 29-16). -/
def ioc_size (code : Nat) : Nat := (code >>> 16) &&& 0x3FFF

/-- Type-group field of a control code (bits 15-8). -/
def ioc_type (code : Nat) : Nat := (code >>> 8) &&& 0xFF

/-- Command-number field of a control code (bits 7-0). -/
def ioc_nr (code : Nat) : Nat := code &&& 0xFF

-- ===========================================================================
-- Main orchestration (src/main.rs lines 308-381)
-- ===========================================================================

/-- Environment `main` runs against: filesystem existence, the result of
`File::open` on a path, and one ioctl oracle per query family. -/
structure Env where
  path_exists : String → Bool
  open_device : String → Except String Unit
  ioctl_info : Nat → Int × KgslDeviceInfo
  ioctl_version : Nat → KgslVersionInfo → Int × KgslVersionInfo
  ioctl_freq : Nat → Nat → Int × Nat

/-- Mirrors `fn main` (main.rs lines 308-381); named `rust_main` because a
top-level `main` is reserved in Lean.  Printing is dropped (pure output);
every `return Ok(())` and the final `Ok(())` are kept.  The version and
frequency queries are issued best-effort on the success path and their
results only feed printing. -/
def rust_main (env : Env) : Except String Unit :=
  match find_kgsl_devices env.path_exists with
  | [] => .ok ()
  | d :: _ =>
    match env.open_device d with
    | .error _ => .ok ()
    | .ok () =>
      match (read_gpu_info env.ioctl_info).1 with
      | .ok _ =>
        let _version_info := (read_gpu_version env.ioctl_version).1.toOption
        let _freq_info := (try_read_gpu_frequency env.ioctl_freq).1
        .ok ()
      | .error _ => .ok ()

-- ===========================================================================
-- Helper lemmas
-- ===========================================================================

set_option maxHeartbeats 1000000

/-- Pairs outside the model-name table hit the catch-all arm. -/
lemma model_name_of_default (a b : Nat) (h : (a, b) ∉ model_table_keys) :
    model_name_of a b = "Adreno GPU" := by
  unfold model_name_of
  split
  all_goals simp_all [model_table_keys]

/-- Majors outside the generation table hit the catch-all arm. -/
lemma adreno_gen_of_default (a : Nat) (h : a ∉ gen_table_keys) :
    adreno_gen_of a = "Unknown" := by
  unfold adreno_gen_of
  split
  all_goals simp_all [gen_table_keys]

/-- Pairs outside the snapdragon table hit the catch-all arm. -/
lemma snapdragon_of_default (a b : Nat) (h : (a, b) ∉ snapdragon_table_keys) :
    snapdragon_of a b = none := by
  unfold snapdragon_of
  split
  all_goals simp_all [snapdragon_table_keys]

-- ===========================================================================
-- Claim theorems
-- ===========================================================================

/-- C3: for every 32-bit input, `decode_chip_id` is total (it is a Lean
function into `ChipInfo`, so totality is by construction) and its four byte
fields are exactly the shifted-and-masked bytes of the input, each a valid
byte value. -/
theorem decode_chip_id_byte_fields (raw : Nat) (_h : raw < 2 ^ 32) :
    (decode_chip_id raw).major = (raw >>> 24) &&& 0xFF ∧
    (decode_chip_id raw).minor = (raw >>> 16) &&& 0xFF ∧
    (decode_chip_id raw).patch = (raw >>> 8) &&& 0xFF ∧
    (decode_chip_id raw).revision = raw &&& 0xFF ∧
    (decode_chip_id raw).major < 256 ∧ (decode_chip_id raw).minor < 256 ∧
    (decode_chip_id raw).patch < 256 ∧ (decode_chip_id raw).revision < 256 := by
  refine ⟨rfl, rfl, rfl, rfl, ?_, ?_, ?_, ?_⟩
  · have hb : (raw >>> 24) &&& 0xFF ≤ 0xFF := Nat.and_le_right
    show (raw >>> 24) &&& 0xFF < 256
    omega
  · have hb : (raw >>> 16) &&& 0xFF ≤ 0xFF := Nat.and_le_right
    show (raw >>> 16) &&& 0xFF < 256
    omega
  · have hb : (raw >>> 8) &&& 0xFF ≤ 0xFF := Nat.and_le_right
    show (raw >>> 8) &&& 0xFF < 256
    omega
  · have hb : raw &&& 0xFF ≤ 0xFF := Nat.and_le_right
    show raw &&& 0xFF < 256
    omega

/-- C3 witness at `raw = 0x06010001`. -/
theorem decode_chip_id_byte_fields_witness :
    (decode_chip_id 0x06010001).major = (0x06010001 >>> 24) &&& 0xFF ∧
    (decode_chip_id 0x06010001).minor = (0x06010001 >>> 16) &&& 0xFF ∧
    (decode_chip_id 0x06010001).patch = (0x06010001 >>> 8) &&& 0xFF ∧
    (decode_chip_id 0x06010001).revision = 0x06010001 &&& 0xFF ∧
    (decode_chip_id 0x06010001).major < 256 ∧
    (decode_chip_id 0x06010001).minor < 256 ∧
    (decode_chip_id 0x06010001).patch < 256 ∧
    (decode_chip_id 0x06010001).revision < 256 :=
  decode_chip_id_byte_fields 0x06010001 (by norm_num)

/-- C8: `decode_chip_id 0x06010001` yields major 6, minor 1, patch 0,
revision 1, model name "Adreno 610" and generation "600". -/
theorem decode_chip_id_adreno_610 :
    (decode_chip_id 0x06010001).major = 6 ∧
    (decode_chip_id 0x06010001).minor = 1 ∧
    (decode_chip_id 0x06010001).patch = 0 ∧
    (decode_chip_id 0x06010001).revision = 1 ∧
    (decode_chip_id 0x06010001).model_name = "Adreno 610" ∧
    (decode_chip_id 0x06010001).adreno_generation = "600" := by
  decide

/-- C7: when the (major, minor) pair is outside the model table the decoder
falls back to the default model name "Adreno GPU"; when major is outside the
generation table the generation is "Unknown"; and `decode_chip_id 0` yields
major 0, minor 0, generation "Unknown" and the default model name. -/
theorem decode_chip_id_fallback (raw : Nat) (_h : raw < 2 ^ 32) :
    (((decode_chip_id raw).major, (decode_chip_id raw).minor) ∉ model_table_keys →
      (decode_chip_id raw).model_name = "Adreno GPU") ∧
    ((decode_chip_id raw).major ∉ gen_table_keys →
      (decode_chip_id raw).adreno_generation = "Unknown") ∧
    (decode_chip_id 0).major = 0 ∧ (decode_chip_id 0).minor = 0 ∧
    (decode_chip_id 0).adreno_generation = "Unknown" ∧
    (decode_chip_id 0).model_name = "Adreno GPU" := by
  refine ⟨?_, ?_, rfl, rfl, rfl, rfl⟩
  · intro hmem
    exact model_name_of_default _ _ hmem
  · intro hmem
    exact adreno_gen_of_default _ hmem

/-- C7 witness at `raw = 0`. -/
theorem decode_chip_id_fallback_witness :
    (((decode_chip_id 0).major, (decode_chip_id 0).minor) ∉ model_table_keys →
      (decode_chip_id 0).model_name = "Adreno GPU") ∧
    ((decode_chip_id 0).major ∉ gen_table_keys →
      (decode_chip_id 0).adreno_generation = "Unknown") ∧
    (decode_chip_id 0).major = 0 ∧ (decode_chip_id 0).minor = 0 ∧
    (decode_chip_id 0).adreno_generation = "Unknown" ∧
    (decode_chip_id 0).model_name = "Adreno GPU" :=
  decode_chip_id_fallback 0 (by norm_num)

/-- C4: for any filesystem existence predicate, `find_kgsl_devices` returns
an order-preserving subsequence of the fixed candidate list containing
exactly the candidates that exist, and the empty list (not an error) when
none exists. -/
theorem find_kgsl_devices_subsequence (path_exists : String → Bool) :
    (find_kgsl_devices path_exists).Sublist possible_paths ∧
    (∀ p, p ∈ find_kgsl_devices path_exists ↔
      p ∈ possible_paths ∧ path_exists p = true) ∧
    ((∀ p ∈ possible_paths, path_exists p = false) →
      find_kgsl_devices path_exists = []) := by
  refine ⟨List.filter_sublist possible_paths, ?_, ?_⟩
  · intro p
    exact List.mem_filter
  · intro hnone
    refine List.filter_eq_nil_iff.2 ?_
    intro p hp
    simp [hnone p hp]

/-- C4 witness: with a predicate matching no path, the locator returns the
empty list. -/
theorem find_kgsl_devices_subsequence_witness :
    find_kgsl_devices (fun _ => false) = [] :=
  (find_kgsl_devices_subsequence (fun _ => false)).2.2 (by intro p _; rfl)

/-- C5: `read_gpu_info` issues exactly one control request per invocation,
with the single validated code 0xc0140902, whose encoded fields are IOWR
direction (3), 20-byte size class, type group 9, command number 2; no other
code is ever tried for the device-info property. -/
theorem read_gpu_info_single_request (ioctl : Nat → Int × KgslDeviceInfo) :
    (read_gpu_info ioctl).2 = [0xc0140902] ∧
    ioc_dir 0xc0140902 = 3 ∧ ioc_size 0xc0140902 = 20 ∧
    ioc_type 0xc0140902 = 9 ∧ ioc_nr 0xc0140902 = 2 :=
  ⟨rfl, by decide, by decide, by decide, by decide⟩

/-- C6: the program's entry point returns success on every path — when no
device is found, when opening the device fails, when the mandatory
device-info query fails, and on full success. -/
theorem rust_main_always_ok (env : Env) : rust_main env = .ok () := by
  unfold rust_main
  split
  · rfl
  · split
    · rfl
    · split <;> rfl

/-- C9: the byte decomposition is exact and lossless in the forward
direction: the `raw_id` field equals the input, and recomposing the four
byte fields as (major <<< 24) ||| (minor <<< 16) ||| (patch <<< 8) |||
revision reconstructs the input exactly. -/
theorem decode_chip_id_lossless (raw : Nat) (h : raw < 2 ^ 32) :
    (decode_chip_id raw).raw_id = raw ∧
    ((decode_chip_id raw).major <<< 24) ||| ((decode_chip_id raw).minor <<< 16) |||
      ((decode_chip_id raw).patch <<< 8) ||| (decode_chip_id raw).revision = raw := by
  refine ⟨rfl, ?_⟩
  show (((raw >>> 24) &&& 0xFF) <<< 24) ||| (((raw >>> 16) &&& 0xFF) <<< 16) |||
      (((raw >>> 8) &&& 0xFF) <<< 8) ||| (raw &&& 0xFF) = raw
  apply Nat.eq_of_testBit_eq
  intro i
  have h255 : (0xFF : Nat) = 2 ^ 8 - 1 := rfl
  simp only [h255, Nat.testBit_or, Nat.testBit_shiftLeft, Nat.testBit_and,
    Nat.testBit_shiftRight, Nat.testBit_two_pow_sub_one]
  rcases Nat.lt_or_ge i 32 with hi | hi
  · interval_cases i <;> simp
  · have hz : raw.testBit i = false :=
      Nat.testBit_lt_two_pow (lt_of_lt_of_le h (Nat.pow_le_pow_right (by norm_num) hi))
    have e1 : ¬(i - 24 < 8) := by omega
    have e2 : ¬(i - 16 < 8) := by omega
    have e3 : ¬(i - 8 < 8) := by omega
    have e4 : ¬(i < 8) := by omega
    simp [e1, e2, e3, e4, hz]

/-- C9 witness at `raw = 0x06010001`. -/
theorem decode_chip_id_lossless_witness :
    (decode_chip_id 0x06010001).raw_id = 0x06010001 ∧
    ((decode_chip_id 0x06010001).major <<< 24) |||
      ((decode_chip_id 0x06010001).minor <<< 16) |||
      ((decode_chip_id 0x06010001).patch <<< 8) |||
      (decode_chip_id 0x06010001).revision = 0x06010001 :=
  decode_chip_id_lossless 0x06010001 (by norm_num)

/-- Oracle whose call succeeds (returns 0) and populates the buffer with
`mmu_enabled = 1` but `device_id = 0` and `chip_id = 0`: the buffer is not
all-zero, yet only the two id fields are inspected by the validation. -/
def mmu_only_ioctl : Nat → Int × KgslDeviceInfo :=
  fun _ => (0, { device_id := 0, chip_id := 0, mmu_enabled := 1, gmem_gpubaseaddr := 0 })

/-- Oracle whose call succeeds with a fully populated, non-zero buffer. -/
def good_info_ioctl : Nat → Int × KgslDeviceInfo :=
  fun _ => (0, { device_id := 1, chip_id := 0x06010001, mmu_enabled := 1,
                 gmem_gpubaseaddr := 0 })

/-- C1 counterexample: under `mmu_only_ioctl` the control call succeeds and
the populated buffer is not all-zero, yet `read_gpu_info` fails with
`EmptyResponse` instead of returning the structure — so the failure is not
"exactly when every byte of the buffer is zero". -/
theorem read_gpu_info_allzero_refuted :
    (mmu_only_ioctl 0xc0140902).1 ≥ 0 ∧
    (mmu_only_ioctl 0xc0140902).2 ≠
      { device_id := 0, chip_id := 0, mmu_enabled := 0, gmem_gpubaseaddr := 0 } ∧
    (read_gpu_info mmu_only_ioctl).1 = .error .EmptyResponse :=
  ⟨by decide, by decide, rfl⟩

/-- C1 amended: when the control call succeeds, `read_gpu_info` fails with
`EmptyResponse` exactly when both the `chip_id` and `device_id` fields of
the populated buffer are zero (the `mmu_enabled` and `gmem_gpubaseaddr`
bytes are not inspected), and otherwise returns the populated structure
unchanged, field for field. -/
theorem read_gpu_info_empty_iff (ioctl : Nat → Int × KgslDeviceInfo)
    (hsucc : ¬((ioctl 0xc0140902).1 < 0)) :
    ((read_gpu_info ioctl).1 = .error .EmptyResponse ↔
      (ioctl 0xc0140902).2.chip_id = 0 ∧ (ioctl 0xc0140902).2.device_id = 0) ∧
    (¬((ioctl 0xc0140902).2.chip_id = 0 ∧ (ioctl 0xc0140902).2.device_id = 0) →
      (read_gpu_info ioctl).1 = .ok (ioctl 0xc0140902).2) := by
  simp only [read_gpu_info]
  rw [if_neg hsucc]
  by_cases hz : (ioctl 0xc0140902).2.chip_id = 0 ∧ (ioctl 0xc0140902).2.device_id = 0
  · rw [if_pos hz]
    exact ⟨⟨fun _ => hz, fun _ => rfl⟩, fun hn => absurd hz hn⟩
  · rw [if_neg hz]
    refine ⟨⟨fun he => ?_, fun hc => absurd hc hz⟩, fun _ => rfl⟩
    exact absurd he (by simp)

/-- C1 witness: an oracle that succeeds with a non-zero chip id; the query
returns the populated structure unchanged. -/
theorem read_gpu_info_empty_iff_witness :
    ((read_gpu_info good_info_ioctl).1 = .error .EmptyResponse ↔
      (good_info_ioctl 0xc0140902).2.chip_id = 0 ∧
      (good_info_ioctl 0xc0140902).2.device_id = 0) ∧
    (¬((good_info_ioctl 0xc0140902).2.chip_id = 0 ∧
       (good_info_ioctl 0xc0140902).2.device_id = 0) →
      (read_gpu_info good_info_ioctl).1 = .ok (good_info_ioctl 0xc0140902).2) :=
  read_gpu_info_empty_iff good_info_ioctl (by decide)

/-- Oracle that always fails (returns -1) and leaves the buffer untouched. -/
def always_fail_ioctl : Nat → KgslVersionInfo → Int × KgslVersionInfo :=
  fun _ v => (-1, v)

/-- C2: the probing loop shared by `read_gpu_version` and
`try_read_gpu_frequency` attempts candidates strictly in the configured
order (the attempt sequence's codes are exactly the candidate list); when no
attempt both succeeds and yields non-zero data it returns the
`NoCandidateWorked` failure after attempting every candidate; and it accepts
at the first attempt that succeeds with non-zero data, issuing exactly the
candidates up to and including that one and none after. -/
theorem query_probing_first_accept {V : Type} (nonzero : V → Bool)
    (ioctl : Nat → V → Int × V) (buf : V) (cs : List Nat) :
    ((run_candidates ioctl buf cs).map Prod.fst = cs) ∧
    ((∀ a ∈ run_candidates ioctl buf cs, ¬(a.2.1 = 0 ∧ nonzero a.2.2)) →
      query_probing nonzero ioctl buf cs = (.error .NoCandidateWorked, cs)) ∧
    (∀ l1 a l2, run_candidates ioctl buf cs = l1 ++ a :: l2 →
      (∀ b ∈ l1, ¬(b.2.1 = 0 ∧ nonzero b.2.2)) →
      (a.2.1 = 0 ∧ nonzero a.2.2) →
      query_probing nonzero ioctl buf cs = (.ok a.2.2, (l1 ++ [a]).map Prod.fst)) := by
  induction cs generalizing buf with
  | nil =>
    refine ⟨rfl, fun _ => rfl, ?_⟩
    intro l1 a l2 heq
    simp [run_candidates] at heq
  | cons c rest ih =>
    refine ⟨?_, ?_, ?_⟩
    · simp only [run_candidates, List.map_cons]
      rw [(ih (ioctl c buf).2).1]
    · intro hall
      have hhead : ¬((ioctl c buf).1 = 0 ∧ nonzero (ioctl c buf).2) := by
        have := hall (c, ioctl c buf) (by simp [run_candidates])
        simpa using this
      have htail : ∀ a ∈ run_candidates ioctl (ioctl c buf).2 rest,
          ¬(a.2.1 = 0 ∧ nonzero a.2.2) := by
        intro a ha
        exact hall a (by simp [run_candidates, ha])
      simp only [query_probing]
      rw [if_neg hhead, (ih (ioctl c buf).2).2.1 htail]
    · intro l1 a l2 heq hfail hacc
      cases l1 with
      | nil =>
        simp only [run_candidates, List.nil_append, List.cons.injEq] at heq
        obtain ⟨ha, _⟩ := heq
        subst ha
        simp only [query_probing]
        rw [if_pos (by simpa using hacc)]
        simp
      | cons b l1t =>
        simp only [run_candidates, List.cons_append, List.cons.injEq] at heq
        obtain ⟨hb, htl⟩ := heq
        have hbfail : ¬((ioctl c buf).1 = 0 ∧ nonzero (ioctl c buf).2) := by
          have := hfail b (by simp)
          rw [← hb] at this
          simpa using this
        have hrec := (ih (ioctl c buf).2).2.2 l1t a l2 htl
          (fun x hx => hfail x (by simp [hx])) hacc
        simp only [query_probing]
        rw [if_neg hbfail, hrec]
        simp [← hb]

/-- C2 witness: with an oracle that fails on every candidate, the version
probe attempts all three configured codes in order and returns the
`NoCandidateWorked` failure. -/
theorem query_probing_first_accept_witness :
    query_probing version_nonzero always_fail_ioctl ⟨0, 0⟩ version_candidates =
      (.error .NoCandidateWorked, version_candidates) :=
  (query_probing_first_accept version_nonzero always_fail_ioctl ⟨0, 0⟩
    version_candidates).2.1 (by decide)

/-- C10: two 32-bit inputs agreeing on their upper 16 bits (major and minor
bytes) decode to identical model_name, adreno_generation and
snapdragon_model — patch and revision never influence the derived labels —
and the snapdragon label is `none` for every (major, minor) pair outside its
fixed table. -/
theorem decode_chip_id_upper16_determines_labels (c1 c2 : Nat)
    (_h1 : c1 < 2 ^ 32) (_h2 : c2 < 2 ^ 32) (h : c1 >>> 16 = c2 >>> 16) :
    (decode_chip_id c1).model_name = (decode_chip_id c2).model_name ∧
    (decode_chip_id c1).adreno_generation = (decode_chip_id c2).adreno_generation ∧
    (decode_chip_id c1).snapdragon_model = (decode_chip_id c2).snapdragon_model ∧
    (∀ c, ((decode_chip_id c).major, (decode_chip_id c).minor) ∉
        snapdragon_table_keys → (decode_chip_id c).snapdragon_model = none) := by
  have hmaj : (c1 >>> 24) &&& 0xFF = (c2 >>> 24) &&& 0xFF := by
    have e1 : c1 >>> 24 = (c1 >>> 16) >>> 8 := by
      rw [← Nat.shiftRight_add]
    have e2 : c2 >>> 24 = (c2 >>> 16) >>> 8 := by
      rw [← Nat.shiftRight_add]
    rw [e1, e2, h]
  have hmin : (c1 >>> 16) &&& 0xFF = (c2 >>> 16) &&& 0xFF := by rw [h]
  refine ⟨?_, ?_, ?_, ?_⟩
  · show model_name_of ((c1 >>> 24) &&& 0xFF) ((c1 >>> 16) &&& 0xFF) =
      model_name_of ((c2 >>> 24) &&& 0xFF) ((c2 >>> 16) &&& 0xFF)
    rw [hmaj, hmin]
  · show adreno_gen_of ((c1 >>> 24) &&& 0xFF) = adreno_gen_of ((c2 >>> 24) &&& 0xFF)
    rw [hmaj]
  · show snapdragon_of ((c1 >>> 24) &&& 0xFF) ((c1 >>> 16) &&& 0xFF) =
      snapdragon_of ((c2 >>> 24) &&& 0xFF) ((c2 >>> 16) &&& 0xFF)
    rw [hmaj, hmin]
  · intro c hc
    exact snapdragon_of_default _ _ hc

/-- C10 witness: 0x06010001 and 0x0601FFFF share their upper 16 bits and
decode to identical derived labels. -/
theorem decode_chip_id_upper16_witness :
    (decode_chip_id 0x06010001).model_name = (decode_chip_id 0x0601FFFF).model_name ∧
    (decode_chip_id 0x06010001).adreno_generation =
      (decode_chip_id 0x0601FFFF).adreno_generation ∧
    (decode_chip_id 0x06010001).snapdragon_model =
      (decode_chip_id 0x0601FFFF).snapdragon_model ∧
    (∀ c, ((decode_chip_id c).major, (decode_chip_id c).minor) ∉
        snapdragon_table_keys → (decode_chip_id c).snapdragon_model = none) :=
  decode_chip_id_upper16_determines_labels 0x06010001 0x0601FFFF
    (by norm_num) (by norm_num) (by decide)
